import Mathlib

/-!
Verification development for the ScrapeBadger MCP server
(`src/scrapebadger_mcp/server.py`).

The server is a thin dispatch layer: a static tool catalog (`list_tools`),
per-tool pydantic argument models, and a `call_tool` handler that validates
arguments, delegates to an external `ScrapeBadger` client and wraps the
result (or any caught exception) into a JSON text payload.

We shallowly embed that layer here.  JSON values are modelled by an
inductive `Json`; the heterogeneous Python results flowing out of the
delegated client are modelled by `PyVal`; exceptions by `Exc`; the
delegated client by a record of functions returning `Except Exc _`.
-/

namespace ScrapebadgerMCP

/-- JSON values, as passed to `json.dumps` by the server. -/
inductive Json where
  | null
  | bool (b : Bool)
  | num (n : Int)
  | str (s : String)
  | arr (elems : List Json)
  | obj (fields : List (String × Json))
deriving Repr

/-- Top-level keys of a JSON object (empty for non-objects). -/
def Json.topKeys : Json → List String
  | .obj fields => fields.map Prod.fst
  | _ => []

/-- Python values a delegated call (or a generator it returns) can produce,
as far as `_serialize_model` distinguishes them: `None`, a pydantic model
(with its `model_dump(mode="json")` result), a plain `dict`, or anything
else (with its `str()` rendering and its own truthiness). -/
inductive PyVal where
  | none
  | model (dump : List (String × Json))
  | dict (fields : List (String × Json))
  | other (text : String) (isTruthy : Bool)
deriving Repr

/-- `_serialize_model` (server.py lines 48-54): a model dumps to its
structured representation, a dict passes through, anything else becomes
`{"data": str(obj)}`. -/
def serialize_model : PyVal → List (String × Json)
  | .model dump => dump
  | .dict fields => fields
  | .none => [("data", Json.str "None")]
  | .other text _ => [("data", Json.str text)]

/-- Python truthiness of a result value (`if result` on line 461): `None`
is falsy, a pydantic model is truthy, a dict is truthy iff non-empty. -/
def pyTruthy : PyVal → Bool
  | .none => false
  | .model _ => true
  | .dict fields => !fields.isEmpty
  | .other _ b => b

/-- A raised Python exception, reduced to what the handlers use:
`type(e).__name__` and `str(e)`. -/
structure Exc where
  ty : String
  msg : String
deriving Repr, DecidableEq

/-- A raw argument value in the `arguments` mapping handed to `call_tool`. -/
inductive ArgVal where
  | null
  | int (n : Int)
  | str (s : String)
deriving Repr, DecidableEq

/-- The raw `arguments: dict[str, Any]` parameter of `call_tool`. -/
abbrev Arguments := List (String × ArgVal)

/-- Look a field up in the raw arguments. -/
def getArg (arguments : Arguments) (field : String) : Option ArgVal :=
  (arguments.find? (fun p => p.1 == field)).map Prod.snd

/-- A pydantic `ValidationError`, reduced to the model it is about and the
locations (field names) of the individual errors. -/
structure ValErr where
  model : String
  fields : List String
deriving Repr, DecidableEq

/-- Lax-mode coercion of a raw value to `int` (pydantic coerces numeric
strings; `None` and other strings fail). -/
def coerceInt : ArgVal → Option Int
  | .int n => some n
  | .str s => s.toInt?
  | .null => Option.none

/-- Validate a required `str` field: present string values pass, anything
else is an error located at the field. -/
def checkReqStr (arguments : Arguments) (field : String) :
    Except (List String) String :=
  match getArg arguments field with
  | some (.str s) => .ok s
  | _ => .error [field]

/-- Validate a required `int` field. -/
def checkReqInt (arguments : Arguments) (field : String) :
    Except (List String) Int :=
  match getArg arguments field with
  | some v =>
    match coerceInt v with
    | some n => .ok n
    | Option.none => .error [field]
  | Option.none => .error [field]

/-- Validate an optional bounded `int` field
(`Field(default=d, ge=lo, le=hi)`): absent means the default, present
values are coerced and range-checked. -/
def checkOptIntRange (arguments : Arguments) (field : String)
    (dflt lo hi : Int) : Except (List String) Int :=
  match getArg arguments field with
  | Option.none => .ok dflt
  | some v =>
    match coerceInt v with
    | some n => if lo ≤ n ∧ n ≤ hi then .ok n else .error [field]
    | Option.none => .error [field]

/-- Validate an optional `str | None` field with default `None`. -/
def checkOptStr (arguments : Arguments) (field : String) :
    Except (List String) (Option String) :=
  match getArg arguments field with
  | Option.none => .ok Option.none
  | some .null => .ok Option.none
  | some (.str s) => .ok (some s)
  | some (.int _) => .error [field]

/-- Run two field checks, collecting the errors of both (pydantic reports
all failing fields of a model at once). -/
def combine2 {α β : Type} (a : Except (List String) α)
    (b : Except (List String) β) : Except (List String) (α × β) :=
  match a, b with
  | .ok x, .ok y => .ok (x, y)
  | .error e1, .error e2 => .error (e1 ++ e2)
  | .error e1, .ok _ => .error e1
  | .ok _, .error e2 => .error e2

/-- `GetUserProfileArgs` (server.py lines 62-65). -/
structure GetUserProfileArgs where
  username : String
deriving Repr, DecidableEq

def GetUserProfileArgs.validate (arguments : Arguments) :
    Except ValErr GetUserProfileArgs :=
  match checkReqStr arguments "username" with
  | .ok u => .ok ⟨u⟩
  | .error fs => .error ⟨"GetUserProfileArgs", fs⟩

/-- `GetUserAboutArgs` (lines 68-71). -/
structure GetUserAboutArgs where
  username : String
deriving Repr, DecidableEq

def GetUserAboutArgs.validate (arguments : Arguments) :
    Except ValErr GetUserAboutArgs :=
  match checkReqStr arguments "username" with
  | .ok u => .ok ⟨u⟩
  | .error fs => .error ⟨"GetUserAboutArgs", fs⟩

/-- `SearchUsersArgs` (lines 74-78): `query` required,
`max_results` default 20, bounds 1-100. -/
structure SearchUsersArgs where
  query : String
  max_results : Int
deriving Repr, DecidableEq

def SearchUsersArgs.validate (arguments : Arguments) :
    Except ValErr SearchUsersArgs :=
  match combine2 (checkReqStr arguments "query")
      (checkOptIntRange arguments "max_results" 20 1 100) with
  | .ok (q, m) => .ok ⟨q, m⟩
  | .error fs => .error ⟨"SearchUsersArgs", fs⟩

/-- `GetFollowersArgs` (lines 81-85): `max_results` default 50, bounds 1-200. -/
structure GetFollowersArgs where
  username : String
  max_results : Int
deriving Repr, DecidableEq

def GetFollowersArgs.validate (arguments : Arguments) :
    Except ValErr GetFollowersArgs :=
  match combine2 (checkReqStr arguments "username")
      (checkOptIntRange arguments "max_results" 50 1 200) with
  | .ok (u, m) => .ok ⟨u, m⟩
  | .error fs => .error ⟨"GetFollowersArgs", fs⟩

/-- `GetFollowingArgs` (lines 88-92): `max_results` default 50, bounds 1-200. -/
structure GetFollowingArgs where
  username : String
  max_results : Int
deriving Repr, DecidableEq

def GetFollowingArgs.validate (arguments : Arguments) :
    Except ValErr GetFollowingArgs :=
  match combine2 (checkReqStr arguments "username")
      (checkOptIntRange arguments "max_results" 50 1 200) with
  | .ok (u, m) => .ok ⟨u, m⟩
  | .error fs => .error ⟨"GetFollowingArgs", fs⟩

/-- `GetTweetArgs` (lines 95-98). -/
structure GetTweetArgs where
  tweet_id : String
deriving Repr, DecidableEq

def GetTweetArgs.validate (arguments : Arguments) :
    Except ValErr GetTweetArgs :=
  match checkReqStr arguments "tweet_id" with
  | .ok t => .ok ⟨t⟩
  | .error fs => .error ⟨"GetTweetArgs", fs⟩

/-- `GetUserTweetsArgs` (lines 101-105): `max_results` default 20, bounds 1-100. -/
structure GetUserTweetsArgs where
  username : String
  max_results : Int
deriving Repr, DecidableEq

def GetUserTweetsArgs.validate (arguments : Arguments) :
    Except ValErr GetUserTweetsArgs :=
  match combine2 (checkReqStr arguments "username")
      (checkOptIntRange arguments "max_results" 20 1 100) with
  | .ok (u, m) => .ok ⟨u, m⟩
  | .error fs => .error ⟨"GetUserTweetsArgs", fs⟩

/-- `SearchTweetsArgs` (lines 108-112): `query` required,
`max_results` default 20, bounds 1-100. -/
structure SearchTweetsArgs where
  query : String
  max_results : Int
deriving Repr, DecidableEq

def SearchTweetsArgs.validate (arguments : Arguments) :
    Except ValErr SearchTweetsArgs :=
  match combine2 (checkReqStr arguments "query")
      (checkOptIntRange arguments "max_results" 20 1 100) with
  | .ok (q, m) => .ok ⟨q, m⟩
  | .error fs => .error ⟨"SearchTweetsArgs", fs⟩

/-- `GetTrendsArgs` (lines 115-121): optional `category`, default `None`. -/
structure GetTrendsArgs where
  category : Option String
deriving Repr, DecidableEq

def GetTrendsArgs.validate (arguments : Arguments) :
    Except ValErr GetTrendsArgs :=
  match checkOptStr arguments "category" with
  | .ok c => .ok ⟨c⟩
  | .error fs => .error ⟨"GetTrendsArgs", fs⟩

/-- `GetPlaceTrendsArgs` (lines 124-129): required `woeid : int`. -/
structure GetPlaceTrendsArgs where
  woeid : Int
deriving Repr, DecidableEq

def GetPlaceTrendsArgs.validate (arguments : Arguments) :
    Except ValErr GetPlaceTrendsArgs :=
  match checkReqInt arguments "woeid" with
  | .ok w => .ok ⟨w⟩
  | .error fs => .error ⟨"GetPlaceTrendsArgs", fs⟩

/-- `SearchPlacesArgs` (lines 132-135). -/
structure SearchPlacesArgs where
  query : String
deriving Repr, DecidableEq

def SearchPlacesArgs.validate (arguments : Arguments) :
    Except ValErr SearchPlacesArgs :=
  match checkReqStr arguments "query" with
  | .ok q => .ok ⟨q⟩
  | .error fs => .error ⟨"SearchPlacesArgs", fs⟩

/-- `GetListDetailArgs` (lines 138-141). -/
structure GetListDetailArgs where
  list_id : String
deriving Repr, DecidableEq

def GetListDetailArgs.validate (arguments : Arguments) :
    Except ValErr GetListDetailArgs :=
  match checkReqStr arguments "list_id" with
  | .ok l => .ok ⟨l⟩
  | .error fs => .error ⟨"GetListDetailArgs", fs⟩

/-- `SearchListsArgs` (lines 144-148): `max_results` default 20, bounds 1-50. -/
structure SearchListsArgs where
  query : String
  max_results : Int
deriving Repr, DecidableEq

def SearchListsArgs.validate (arguments : Arguments) :
    Except ValErr SearchListsArgs :=
  match combine2 (checkReqStr arguments "query")
      (checkOptIntRange arguments "max_results" 20 1 50) with
  | .ok (q, m) => .ok ⟨q, m⟩
  | .error fs => .error ⟨"SearchListsArgs", fs⟩

/-- `GetListTweetsArgs` (lines 151-155): `max_results` default 20, bounds 1-100. -/
structure GetListTweetsArgs where
  list_id : String
  max_results : Int
deriving Repr, DecidableEq

def GetListTweetsArgs.validate (arguments : Arguments) :
    Except ValErr GetListTweetsArgs :=
  match combine2 (checkReqStr arguments "list_id")
      (checkOptIntRange arguments "max_results" 20 1 100) with
  | .ok (l, m) => .ok ⟨l, m⟩
  | .error fs => .error ⟨"GetListTweetsArgs", fs⟩

/-- `GetCommunityDetailArgs` (lines 158-161). -/
structure GetCommunityDetailArgs where
  community_id : String
deriving Repr, DecidableEq

def GetCommunityDetailArgs.validate (arguments : Arguments) :
    Except ValErr GetCommunityDetailArgs :=
  match checkReqStr arguments "community_id" with
  | .ok c => .ok ⟨c⟩
  | .error fs => .error ⟨"GetCommunityDetailArgs", fs⟩

/-- `SearchCommunitiesArgs` (lines 164-167). -/
structure SearchCommunitiesArgs where
  query : String
deriving Repr, DecidableEq

def SearchCommunitiesArgs.validate (arguments : Arguments) :
    Except ValErr SearchCommunitiesArgs :=
  match checkReqStr arguments "query" with
  | .ok q => .ok ⟨q⟩
  | .error fs => .error ⟨"SearchCommunitiesArgs", fs⟩

/-- `TrendCategory` of the delegated `scrapebadger.twitter` package. -/
inductive TrendCategory where
  | news
  | sports
  | entertainment
deriving Repr, DecidableEq

/-- A delegated-client response object exposing a `.data` sequence
(trends, geo search, list search, community search responses). -/
structure DataResponse where
  data : List PyVal

/-- The delegated `ScrapeBadger` client, reduced to the sixteen operations
`call_tool` invokes.  Enumerating operations (`*_all` async generators) are
modelled by the finite list of items they yield for the given
`max_items` bound; every operation may instead raise a categorized
exception. -/
structure Client where
  users_get_by_username : String → Except Exc PyVal
  users_get_about : String → Except Exc PyVal
  users_search_all : String → Int → Except Exc (List PyVal)
  users_get_followers_all : String → Int → Except Exc (List PyVal)
  users_get_following_all : String → Int → Except Exc (List PyVal)
  tweets_get_by_id : String → Except Exc PyVal
  tweets_get_user_tweets_all : String → Int → Except Exc (List PyVal)
  tweets_search_all : String → Int → Except Exc (List PyVal)
  trends_get_trends : Option TrendCategory → Except Exc DataResponse
  trends_get_place_trends : Int → Except Exc PyVal
  geo_search : String → Except Exc DataResponse
  lists_get_detail : String → Except Exc PyVal
  lists_search : String → Except Exc DataResponse
  lists_get_tweets_all : String → Int → Except Exc (List PyVal)
  communities_get_detail : String → Except Exc PyVal
  communities_search : String → Except Exc DataResponse

/-- The message of the `ValueError` raised by `_get_api_key`
(server.py lines 33-36). -/
def apiKeyErrorMsg : String :=
  "SCRAPEBADGER_API_KEY environment variable is required. " ++
    "Get your API key at https://scrapebadger.com"

/-- `_get_api_key` (lines 29-37): reads `SCRAPEBADGER_API_KEY` from the
environment; `if not api_key` treats both an unset variable and an empty
string as absent and raises `ValueError`. -/
def get_api_key (env : String → Option String) : Except Exc String :=
  match env "SCRAPEBADGER_API_KEY" with
  | some k => if k = "" then .error ⟨"ValueError", apiKeyErrorMsg⟩ else .ok k
  | Option.none => .error ⟨"ValueError", apiKeyErrorMsg⟩

/-- `_get_client` (lines 40-45): return the cached global client, or
construct one from the API key on first use.  `mk` stands for the
`ScrapeBadger(api_key=...)` constructor. -/
def get_client (env : String → Option String) (cached : Option Client)
    (mk : String → Client) : Except Exc Client :=
  match cached with
  | some c => .ok c
  | Option.none =>
    match get_api_key env with
    | .ok key => .ok (mk key)
    | .error e => .error e

/-- Render a pydantic `ValidationError` into the exception `call_tool`
catches: `type(e).__name__` is `ValidationError` and `str(e)` names the
model and every failing field. -/
def valErrToExc (e : ValErr) : Exc :=
  ⟨"ValidationError",
    toString e.fields.length ++ " validation error for " ++ e.model ++
      ": " ++ String.intercalate ", " e.fields⟩

/-- The `{items, count}` listing dict the collection branches build, e.g.
`{"users": users, "count": len(users)}` with each item already passed
through `_serialize_model`. -/
def listing (key : String) (items : List PyVal) : PyVal :=
  .dict [(key, Json.arr (items.map (fun v => Json.obj (serialize_model v)))),
         ("count", Json.num (items.length : Int))]

/-- Python `str.lower()` (character-wise lowering, as on the ASCII
category names it is compared against). -/
def strLower (s : String) : String := ⟨s.data.map Char.toLower⟩

/-- The `category_map.get(...)` lookup (lines 388-393). -/
def category_map (s : String) : Option TrendCategory :=
  if s = "news" then some TrendCategory.news
  else if s = "sports" then some TrendCategory.sports
  else if s = "entertainment" then some TrendCategory.entertainment
  else Option.none

/-- Outcome of the dispatch chain of `call_tool`: either the `else` branch
for an unknown tool name (lines 452-458), or the `result` value a matched
branch produced. -/
inductive DispatchOut where
  | unknown
  | result (v : PyVal)
deriving Repr

/-- Sequencing with exception propagation: a raised exception skips the
rest of the `try` block. -/
def step {α β : Type} (x : Except Exc α) (f : α → Except Exc β) :
    Except Exc β :=
  match x with
  | .error e => .error e
  | .ok a => f a

/-- Sequencing after pydantic validation: a `ValidationError` raised by
`Model(**arguments)` propagates as an exception. -/
def valStep {α : Type} (x : Except ValErr α)
    (f : α → Except Exc DispatchOut) : Except Exc DispatchOut :=
  match x with
  | .error e => .error (valErrToExc e)
  | .ok a => f a

/-- The name-dispatch chain of `call_tool` (server.py lines 323-458):
each branch validates its arguments with the tool's pydantic model and
delegates to the client, re-raising (propagating) any exception to the
surrounding handler. -/
def dispatch (client : Client) (name : String) (arguments : Arguments) :
    Except Exc DispatchOut :=
  if name = "get_twitter_user_profile" then
    valStep (GetUserProfileArgs.validate arguments) (fun args =>
      step (client.users_get_by_username args.username) (fun r =>
        .ok (.result r)))
  else if name = "get_twitter_user_about" then
    valStep (GetUserAboutArgs.validate arguments) (fun args =>
      step (client.users_get_about args.username) (fun r =>
        .ok (.result r)))
  else if name = "search_twitter_users" then
    valStep (SearchUsersArgs.validate arguments) (fun args =>
      step (client.users_search_all args.query args.max_results) (fun users =>
        .ok (.result (listing "users" users))))
  else if name = "get_twitter_followers" then
    valStep (GetFollowersArgs.validate arguments) (fun args =>
      step (client.users_get_followers_all args.username args.max_results)
        (fun followers => .ok (.result (listing "followers" followers))))
  else if name = "get_twitter_following" then
    valStep (GetFollowingArgs.validate arguments) (fun args =>
      step (client.users_get_following_all args.username args.max_results)
        (fun following => .ok (.result (listing "following" following))))
  else if name = "get_twitter_tweet" then
    valStep (GetTweetArgs.validate arguments) (fun args =>
      step (client.tweets_get_by_id args.tweet_id) (fun r =>
        .ok (.result r)))
  else if name = "get_twitter_user_tweets" then
    valStep (GetUserTweetsArgs.validate arguments) (fun args =>
      step (client.tweets_get_user_tweets_all args.username args.max_results)
        (fun tweets => .ok (.result (listing "tweets" tweets))))
  else if name = "search_twitter_tweets" then
    valStep (SearchTweetsArgs.validate arguments) (fun args =>
      step (client.tweets_search_all args.query args.max_results)
        (fun tweets => .ok (.result (listing "tweets" tweets))))
  else if name = "get_twitter_trends" then
    valStep (GetTrendsArgs.validate arguments) (fun args =>
      step (match args.category with
            | some c =>
              if c ≠ "" then
                client.trends_get_trends (category_map (strLower c))
              else client.trends_get_trends Option.none
            | Option.none => client.trends_get_trends Option.none)
        (fun resp => .ok (.result (listing "trends" resp.data))))
  else if name = "get_twitter_place_trends" then
    valStep (GetPlaceTrendsArgs.validate arguments) (fun args =>
      step (client.trends_get_place_trends args.woeid) (fun place_trends =>
        .ok (.result (.dict (serialize_model place_trends)))))
  else if name = "search_twitter_places" then
    valStep (SearchPlacesArgs.validate arguments) (fun args =>
      step (client.geo_search args.query) (fun resp =>
        .ok (.result (listing "places" resp.data))))
  else if name = "get_twitter_list_detail" then
    valStep (GetListDetailArgs.validate arguments) (fun args =>
      step (client.lists_get_detail args.list_id) (fun r =>
        .ok (.result r)))
  else if name = "search_twitter_lists" then
    valStep (SearchListsArgs.validate arguments) (fun args =>
      step (client.lists_search args.query) (fun resp =>
        .ok (.result (listing "lists" (resp.data.take args.max_results.toNat)))))
  else if name = "get_twitter_list_tweets" then
    valStep (GetListTweetsArgs.validate arguments) (fun args =>
      step (client.lists_get_tweets_all args.list_id args.max_results)
        (fun tweets => .ok (.result (listing "tweets" tweets))))
  else if name = "get_twitter_community_detail" then
    valStep (GetCommunityDetailArgs.validate arguments) (fun args =>
      step (client.communities_get_detail args.community_id) (fun r =>
        .ok (.result r)))
  else if name = "search_twitter_communities" then
    valStep (SearchCommunitiesArgs.validate arguments) (fun args =>
      step (client.communities_search args.query) (fun resp =>
        .ok (.result (listing "communities" resp.data))))
  else
    .ok .unknown

/-- The body of `call_tool`'s `try` block, up to producing a result:
obtain the client (line 320), then run the dispatch chain.  An error value
is an exception that reaches the `except` handlers. -/
def call_tool_attempt (env : String → Option String) (cached : Option Client)
    (mk : String → Client) (name : String) (arguments : Arguments) :
    Except Exc DispatchOut :=
  match get_client env cached mk with
  | .error e => .error e
  | .ok client => dispatch client name arguments

/-- The error envelope both `except` handlers build (lines 464-489):
`{"error": str(e), "error_type": type(e).__name__}`. -/
def errorEnvelope (e : Exc) : Json :=
  Json.obj [("error", Json.str e.msg), ("error_type", Json.str e.ty)]

/-- `call_tool` (server.py lines 316-489), as the JSON object serialized
into the single returned `TextContent`.  A successful dispatch is
serialized by `_serialize_model(result) if result else {"data": None}`
(line 461); an unknown tool name yields `{"error": "Unknown tool: ..."}`
(lines 452-458); a caught exception yields the error envelope. -/
def call_tool (env : String → Option String) (cached : Option Client)
    (mk : String → Client) (name : String) (arguments : Arguments) : Json :=
  match call_tool_attempt env cached mk name arguments with
  | .error e => errorEnvelope e
  | .ok .unknown => Json.obj [("error", Json.str ("Unknown tool: " ++ name))]
  | .ok (.result v) =>
    if pyTruthy v then Json.obj (serialize_model v)
    else Json.obj [("data", Json.null)]

/-- An `mcp.types.Tool` descriptor as built in `list_tools`. -/
structure Tool where
  name : String
  description : String
  inputSchema : Json
deriving Repr

/-- JSON schema of a required `str` field, as pydantic renders it. -/
def strFieldSchema (title desc : String) : Json :=
  Json.obj [("description", Json.str desc), ("title", Json.str title),
            ("type", Json.str "string")]

/-- JSON schema of an optional bounded `int` field. -/
def boundedIntFieldSchema (title desc : String) (dflt lo hi : Int) : Json :=
  Json.obj [("default", Json.num dflt), ("description", Json.str desc),
            ("maximum", Json.num hi), ("minimum", Json.num lo),
            ("title", Json.str title), ("type", Json.str "integer")]

/-- JSON schema of a required `int` field. -/
def intFieldSchema (title desc : String) : Json :=
  Json.obj [("description", Json.str desc), ("title", Json.str title),
            ("type", Json.str "integer")]

/-- JSON schema of a `str | None` field with default `None`. -/
def optStrFieldSchema (title desc : String) : Json :=
  Json.obj [("anyOf", Json.arr [Json.obj [("type", Json.str "string")],
                                Json.obj [("type", Json.str "null")]]),
            ("default", Json.null), ("description", Json.str desc),
            ("title", Json.str title)]

/-- `model_json_schema()` of a pydantic argument model: `properties`,
`required` (omitted when no field is required), `title`, and
`type: object`. -/
def modelSchema (title : String) (props : List (String × Json))
    (required : List String) : Json :=
  Json.obj (("properties", Json.obj props) ::
    (if required.isEmpty then []
     else [("required", Json.arr (required.map Json.str))]) ++
    [("title", Json.str title), ("type", Json.str "object")])

/-- `list_tools` (server.py lines 175-313): the static tool catalog. -/
def list_tools : List Tool :=
  [⟨"get_twitter_user_profile",
    "Get a Twitter/X user\x27s profile by username. Returns name, bio, " ++
      "follower count, following count, verified status, and more.",
    modelSchema "GetUserProfileArgs"
      [("username", strFieldSchema "Username" "Twitter username (without @)")]
      ["username"]⟩,
   ⟨"get_twitter_user_about",
    "Get extended \x27About\x27 information for a Twitter/X user including " ++
      "account location, username change history, and verification details.",
    modelSchema "GetUserAboutArgs"
      [("username", strFieldSchema "Username" "Twitter username (without @)")]
      ["username"]⟩,
   ⟨"search_twitter_users",
    "Search for Twitter/X users by query. Returns matching profiles " ++
      "with bios, follower counts, and verification status.",
    modelSchema "SearchUsersArgs"
      [("query", strFieldSchema "Query" "Search query string"),
       ("max_results", boundedIntFieldSchema "Max Results" "Max results (1-100)" 20 1 100)]
      ["query"]⟩,
   ⟨"get_twitter_followers",
    "Get followers of a Twitter/X user. Returns list of follower " ++
      "profiles with their bios and follower counts.",
    modelSchema "GetFollowersArgs"
      [("username", strFieldSchema "Username" "Twitter username (without @)"),
       ("max_results", boundedIntFieldSchema "Max Results" "Max results (1-200)" 50 1 200)]
      ["username"]⟩,
   ⟨"get_twitter_following",
    "Get accounts that a Twitter/X user is following. Returns list " ++
      "of following profiles with their bios and follower counts.",
    modelSchema "GetFollowingArgs"
      [("username", strFieldSchema "Username" "Twitter username (without @)"),
       ("max_results", boundedIntFieldSchema "Max Results" "Max results (1-200)" 50 1 200)]
      ["username"]⟩,
   ⟨"get_twitter_tweet",
    "Get a single tweet by ID. Returns tweet text, author, metrics " ++
      "(likes, retweets, replies), media, polls, and quoted tweets.",
    modelSchema "GetTweetArgs"
      [("tweet_id", strFieldSchema "Tweet Id" "Tweet ID")]
      ["tweet_id"]⟩,
   ⟨"get_twitter_user_tweets",
    "Get recent tweets from a Twitter/X user. Returns tweets with " ++
      "text, metrics, media, and engagement data.",
    modelSchema "GetUserTweetsArgs"
      [("username", strFieldSchema "Username" "Twitter username (without @)"),
       ("max_results", boundedIntFieldSchema "Max Results" "Max results (1-100)" 20 1 100)]
      ["username"]⟩,
   ⟨"search_twitter_tweets",
    "Search for tweets by query. Returns matching tweets with text, " ++
      "authors, metrics, and media. Supports advanced Twitter search operators.",
    modelSchema "SearchTweetsArgs"
      [("query", strFieldSchema "Query" "Search query string"),
       ("max_results", boundedIntFieldSchema "Max Results" "Max results (1-100)" 20 1 100)]
      ["query"]⟩,
   ⟨"get_twitter_trends",
    "Get current trending topics on Twitter/X. Optionally filter by " ++
      "category (news, sports, entertainment). Returns trend names and tweet counts.",
    modelSchema "GetTrendsArgs"
      [("category", optStrFieldSchema "Category"
        "Trend category: \x27news\x27, \x27sports\x27, \x27entertainment\x27, or None for all")]
      []⟩,
   ⟨"get_twitter_place_trends",
    "Get trending topics for a specific location using WOEID. " ++
      "Common WOEIDs: US=23424977, UK=23424975, Japan=23424856.",
    modelSchema "GetPlaceTrendsArgs"
      [("woeid", intFieldSchema "Woeid"
        "Where On Earth ID (e.g., 23424977 for US, 44418 for London)")]
      ["woeid"]⟩,
   ⟨"search_twitter_places",
    "Search for Twitter places by name. Returns place names, types, " ++
      "and full location details for use with geolocated tweets.",
    modelSchema "SearchPlacesArgs"
      [("query", strFieldSchema "Query" "Place name to search")]
      ["query"]⟩,
   ⟨"get_twitter_list_detail",
    "Get details about a Twitter list including name, description, " ++
      "member count, subscriber count, and owner information.",
    modelSchema "GetListDetailArgs"
      [("list_id", strFieldSchema "List Id" "Twitter list ID")]
      ["list_id"]⟩,
   ⟨"search_twitter_lists",
    "Search for Twitter lists by query. Returns matching lists " ++
      "with names, descriptions, and member counts.",
    modelSchema "SearchListsArgs"
      [("query", strFieldSchema "Query" "Search query for lists"),
       ("max_results", boundedIntFieldSchema "Max Results" "Max results (1-50)" 20 1 50)]
      ["query"]⟩,
   ⟨"get_twitter_list_tweets",
    "Get recent tweets from a Twitter list. Returns tweets from " ++
      "all list members with text, metrics, and media.",
    modelSchema "GetListTweetsArgs"
      [("list_id", strFieldSchema "List Id" "Twitter list ID"),
       ("max_results", boundedIntFieldSchema "Max Results" "Max results (1-100)" 20 1 100)]
      ["list_id"]⟩,
   ⟨"get_twitter_community_detail",
    "Get details about a Twitter community including name, description, " ++
      "member count, rules, and admin information.",
    modelSchema "GetCommunityDetailArgs"
      [("community_id", strFieldSchema "Community Id" "Twitter community ID")]
      ["community_id"]⟩,
   ⟨"search_twitter_communities",
    "Search for Twitter communities by query. Returns matching " ++
      "communities with names, descriptions, and member counts.",
    modelSchema "SearchCommunitiesArgs"
      [("query", strFieldSchema "Query" "Search query for communities")]
      ["query"]⟩]

/-- Does a JSON object carry the given top-level key? -/
def Json.hasKey (j : Json) (k : String) : Bool :=
  match j with
  | .obj fields => fields.any (fun p => p.1 == k)
  | _ => false

/-- The names of the catalog's tools, in catalog order — also exactly the
names the dispatch chain of `call_tool` recognizes. -/
def catalogToolNames : List String :=
  ["get_twitter_user_profile", "get_twitter_user_about",
   "search_twitter_users", "get_twitter_followers", "get_twitter_following",
   "get_twitter_tweet", "get_twitter_user_tweets", "search_twitter_tweets",
   "get_twitter_trends", "get_twitter_place_trends",
   "search_twitter_places",
   "get_twitter_list_detail", "search_twitter_lists",
   "get_twitter_list_tweets",
   "get_twitter_community_detail", "search_twitter_communities"]

/-- The collection-fetch tools, whose result is a `{items, count}`
listing. -/
def listingToolNames : List String :=
  ["search_twitter_users", "get_twitter_followers", "get_twitter_following",
   "get_twitter_user_tweets", "search_twitter_tweets", "get_twitter_trends",
   "search_twitter_places", "search_twitter_lists", "get_twitter_list_tweets",
   "search_twitter_communities"]

/-! ### Concrete fixtures used by witnesses and counterexamples -/

/-- A sample user record as dumped by the delegated client. -/
def okUser : PyVal :=
  .model [("username", Json.str "alice"), ("followers_count", Json.num 10)]

/-- A sample tweet record. -/
def okTweet : PyVal :=
  .model [("id", Json.str "1"), ("text", Json.str "hello")]

/-- A sample trend record. -/
def okTrend : PyVal :=
  .model [("name", Json.str "topic"), ("tweet_count", Json.num 5)]

/-- A delegated client on which every operation succeeds; user search
returns no matches. -/
def testClient : Client :=
  ⟨fun _ => .ok okUser,
   fun _ => .ok okUser,
   fun _ _ => .ok [],
   fun _ _ => .ok [okUser],
   fun _ _ => .ok [okUser],
   fun _ => .ok okTweet,
   fun _ _ => .ok [okTweet],
   fun _ _ => .ok [okTweet],
   fun _ => .ok ⟨[okTrend]⟩,
   fun _ => .ok (.model [("woeid", Json.num 1)]),
   fun _ => .ok ⟨[]⟩,
   fun _ => .ok (.model [("id", Json.str "l1")]),
   fun _ => .ok ⟨[]⟩,
   fun _ _ => .ok [okTweet],
   fun _ => .ok (.model [("id", Json.str "c1")]),
   fun _ => .ok ⟨[]⟩⟩

/-- The categorized downstream failure used in witnesses. -/
def rateLimitExc : Exc := ⟨"RateLimitError", "Rate limit exceeded"⟩

/-- A delegated client on which every operation raises `rateLimitExc`. -/
def failingClient : Client :=
  ⟨fun _ => .error rateLimitExc,
   fun _ => .error rateLimitExc,
   fun _ _ => .error rateLimitExc,
   fun _ _ => .error rateLimitExc,
   fun _ _ => .error rateLimitExc,
   fun _ => .error rateLimitExc,
   fun _ _ => .error rateLimitExc,
   fun _ _ => .error rateLimitExc,
   fun _ => .error rateLimitExc,
   fun _ => .error rateLimitExc,
   fun _ => .error rateLimitExc,
   fun _ => .error rateLimitExc,
   fun _ => .error rateLimitExc,
   fun _ _ => .error rateLimitExc,
   fun _ => .error rateLimitExc,
   fun _ => .error rateLimitExc⟩

/-- An environment with no variables set. -/
def envNone : String → Option String := fun _ => Option.none

/-- An environment with `SCRAPEBADGER_API_KEY` set to `"test_key"`. -/
def envWithKey : String → Option String :=
  fun n => if n = "SCRAPEBADGER_API_KEY" then some "test_key" else Option.none

/-- An environment with `SCRAPEBADGER_API_KEY` set to the empty string. -/
def envEmptyKey : String → Option String :=
  fun n => if n = "SCRAPEBADGER_API_KEY" then some "" else Option.none

/-- A `ScrapeBadger(api_key=...)` constructor producing `testClient`. -/
def mkTest : String → Client := fun _ => testClient

/-! ### Theorems -/

/-- C9: with no configured credential, `_get_api_key` fails with a
configuration error (`ValueError`) whose message contains (here: starts
with) the credential name `SCRAPEBADGER_API_KEY`; when the environment
variable holds a non-empty string, exactly that string is returned. -/
theorem get_api_key_contract (env : String → Option String) :
    (env "SCRAPEBADGER_API_KEY" = Option.none →
      ∃ e : Exc, get_api_key env = .error e ∧ e.ty = "ValueError" ∧
        ∃ t, e.msg = "SCRAPEBADGER_API_KEY" ++ t) ∧
    (∀ k : String, env "SCRAPEBADGER_API_KEY" = some k → k ≠ "" →
      get_api_key env = .ok k) := by
  constructor
  · intro h
    refine ⟨⟨"ValueError", apiKeyErrorMsg⟩, ?_, rfl,
      " environment variable is required. Get your API key at https://scrapebadger.com", ?_⟩
    · simp [get_api_key, h]
    · rfl
  · intro k hk hne
    simp [get_api_key, hk, hne]

/-- Witness for `get_api_key_contract` at two concrete environments. -/
theorem get_api_key_contract_witness :
    (∃ e : Exc, get_api_key envNone = .error e ∧ e.ty = "ValueError" ∧
      ∃ t, e.msg = "SCRAPEBADGER_API_KEY" ++ t) ∧
    get_api_key envWithKey = .ok "test_key" :=
  ⟨(get_api_key_contract envNone).1 rfl,
   (get_api_key_contract envWithKey).2 "test_key" (by simp [envWithKey]) (by decide)⟩

/-- C10: an empty-string credential is treated exactly like an absent one:
`_get_api_key` raises the same `ValueError` instead of returning `""`. -/
theorem empty_api_key_treated_as_absent (env envAbsent : String → Option String)
    (h : env "SCRAPEBADGER_API_KEY" = some "")
    (ha : envAbsent "SCRAPEBADGER_API_KEY" = Option.none) :
    get_api_key env = get_api_key envAbsent ∧
      get_api_key env = .error ⟨"ValueError", apiKeyErrorMsg⟩ := by
  constructor
  · simp [get_api_key, h, ha]
  · simp [get_api_key, h]

/-- Witness for `empty_api_key_treated_as_absent`. -/
theorem empty_api_key_treated_as_absent_witness :
    get_api_key envEmptyKey = get_api_key envNone ∧
      get_api_key envEmptyKey = .error ⟨"ValueError", apiKeyErrorMsg⟩ :=
  empty_api_key_treated_as_absent envEmptyKey envNone (by simp [envEmptyKey]) rfl

/-- C6: validating `{query: "python"}` against `SearchTweetsArgs` succeeds
with `max_results` defaulted to 20; supplying `max_results = 50` yields 50;
and any `max_results` outside 1-100 fails with a validation error naming
`max_results`. -/
theorem search_tweets_args_validation :
    SearchTweetsArgs.validate [("query", ArgVal.str "python")] =
        .ok ⟨"python", 20⟩ ∧
    SearchTweetsArgs.validate
        [("query", ArgVal.str "python"), ("max_results", ArgVal.int 50)] =
        .ok ⟨"python", 50⟩ ∧
    ∀ n : Int, (n < 1 ∨ 100 < n) →
      ∃ e : ValErr,
        SearchTweetsArgs.validate
            [("query", ArgVal.str "python"), ("max_results", ArgVal.int n)] =
            .error e ∧
          "max_results" ∈ e.fields := by
  refine ⟨rfl, rfl, ?_⟩
  intro n hn
  have hb : ¬ (1 ≤ n ∧ n ≤ 100) := by omega
  refine ⟨⟨"SearchTweetsArgs", ["max_results"]⟩, ?_, by simp⟩
  simp [SearchTweetsArgs.validate, combine2, checkReqStr, checkOptIntRange,
    getArg, coerceInt, hb]

/-- Witness for `search_tweets_args_validation` at `max_results = 150`. -/
theorem search_tweets_args_validation_witness :
    ∃ e : ValErr,
      SearchTweetsArgs.validate
          [("query", ArgVal.str "python"), ("max_results", ArgVal.int 150)] =
          .error e ∧
        "max_results" ∈ e.fields :=
  search_tweets_args_validation.2.2 150 (Or.inr (by decide))

/-- C5: no exception escapes `call_tool`: whenever obtaining the client or
dispatching raises an exception `e`, `call_tool` returns the error
envelope `{"error": str(e), "error_type": type(e).__name__}`. -/
theorem call_tool_exception_envelope (env : String → Option String)
    (cached : Option Client) (mk : String → Client) (name : String)
    (arguments : Arguments) (e : Exc)
    (h : call_tool_attempt env cached mk name arguments = .error e) :
    call_tool env cached mk name arguments =
      Json.obj [("error", Json.str e.msg), ("error_type", Json.str e.ty)] := by
  unfold call_tool
  rw [h]
  rfl

/-- Witness for `call_tool_exception_envelope`: a rate-limit failure of the
delegated client surfaces as an envelope with its category label. -/
theorem call_tool_exception_envelope_witness :
    call_tool envWithKey (some failingClient) mkTest "get_twitter_user_profile"
        [("username", ArgVal.str "alice")] =
      Json.obj [("error", Json.str "Rate limit exceeded"),
                ("error_type", Json.str "RateLimitError")] :=
  call_tool_exception_envelope envWithKey (some failingClient) mkTest
    "get_twitter_user_profile" [("username", ArgVal.str "alice")]
    rateLimitExc rfl

set_option maxRecDepth 8192

/-- C2: evaluation of the catalog: `list_tools` returns 16 descriptors
(not 17), their names are exactly the dispatchable tool names
(5 user, 3 tweet, 2 trend, 1 geo, 3 list, 2 community), every description
is longer than 10 characters, and every input schema carries a
properties key and a type key.  The repository's own test
`test_list_tools_returns_tools` asserts `len(tools) == 17`. -/
theorem list_tools_catalog :
    list_tools.length = 16 ∧
    list_tools.map Tool.name = catalogToolNames ∧
    list_tools.all (fun t => decide (10 < t.description.length) &&
      (t.inputSchema.hasKey "properties" && t.inputSchema.hasKey "type")) = true :=
  ⟨rfl, rfl, by decide⟩

/-- C1 (counterexample): a successful `search_twitter_users` call returns
the `{users, count}` listing itself — the payload's single top-level key
is not `data`. -/
theorem success_payload_not_wrapped_in_data :
    call_tool envWithKey (some testClient) mkTest "search_twitter_users"
        [("query", ArgVal.str "python")] =
      Json.obj [("users", Json.arr []), ("count", Json.num 0)] ∧
    (call_tool envWithKey (some testClient) mkTest "search_twitter_users"
        [("query", ArgVal.str "python")]).topKeys ≠ ["data"] :=
  ⟨rfl, by decide⟩

/-- C1 (amended): a successful invocation whose ToolResult is a non-empty
dict `r` serializes `r` itself as the payload — parsing the text back
reproduces `r` directly, with `r`'s own top-level keys, not `{data: r}`. -/
theorem call_tool_success_payload_is_result (env : String → Option String)
    (cached : Option Client) (mk : String → Client) (name : String)
    (arguments : Arguments) (c : Client) (fields : List (String × Json))
    (hc : get_client env cached mk = .ok c)
    (hd : dispatch c name arguments = .ok (.result (.dict fields)))
    (hne : fields ≠ []) :
    call_tool env cached mk name arguments = Json.obj fields := by
  have hat : call_tool_attempt env cached mk name arguments =
      .ok (.result (.dict fields)) := by
    unfold call_tool_attempt
    rw [hc]
    exact hd
  unfold call_tool
  rw [hat]
  cases fields with
  | nil => exact absurd rfl hne
  | cons p rest => rfl

/-- Witness for `call_tool_success_payload_is_result`. -/
theorem call_tool_success_payload_is_result_witness :
    call_tool envWithKey (some testClient) mkTest "get_twitter_followers"
        [("username", ArgVal.str "alice")] =
      Json.obj [("followers", Json.arr [Json.obj [("username", Json.str "alice"),
                  ("followers_count", Json.num 10)]]),
                ("count", Json.num 1)] :=
  call_tool_success_payload_is_result envWithKey (some testClient) mkTest
    "get_twitter_followers" [("username", ArgVal.str "alice")] testClient
    [("followers", Json.arr [Json.obj [("username", Json.str "alice"),
       ("followers_count", Json.num 10)]]), ("count", Json.num 1)]
    rfl rfl (by simp)

/-- Any name outside the sixteen dispatched tool names falls through to
the `else` branch of the dispatch chain. -/
theorem dispatch_unknown (c : Client) (name : String) (arguments : Arguments)
    (h : name ∉ catalogToolNames) :
    dispatch c name arguments = .ok .unknown := by
  simp only [catalogToolNames, List.mem_cons, List.not_mem_nil, or_false,
    not_or] at h
  obtain ⟨h1, h2, h3, h4, h5, h6, h7, h8, h9, h10, h11, h12, h13, h14, h15, h16⟩ := h
  simp [dispatch, h1, h2, h3, h4, h5, h6, h7, h8, h9, h10, h11, h12, h13, h14,
    h15, h16]

/-- C3 (counterexample): with a client available, an unknown tool name
yields `{"error": "Unknown tool: <name>"}` only — the payload carries no
`error_type` top-level key. -/
theorem unknown_tool_envelope_missing_error_type :
    call_tool envWithKey (some testClient) mkTest "not_a_real_tool" [] =
      Json.obj [("error", Json.str "Unknown tool: not_a_real_tool")] ∧
    "error_type" ∉ (call_tool envWithKey (some testClient) mkTest
      "not_a_real_tool" []).topKeys :=
  ⟨rfl, by decide⟩

/-- C3 (amended): for every tool name not present in the catalog, given an
available client, `call_tool` returns (does not raise) the error envelope
`{"error": "Unknown tool: <name>"}`, whose `error` text mentions the
unrecognized name; it carries the `error` key but no `error_type` key. -/
theorem call_tool_unknown_tool_envelope (env : String → Option String)
    (c : Client) (mk : String → Client) (name : String)
    (arguments : Arguments) (h : name ∉ catalogToolNames) :
    call_tool env (some c) mk name arguments =
        Json.obj [("error", Json.str ("Unknown tool: " ++ name))] ∧
      "error_type" ∉ (call_tool env (some c) mk name arguments).topKeys := by
  have hat : call_tool_attempt env (some c) mk name arguments =
      dispatch c name arguments := rfl
  have hu : call_tool_attempt env (some c) mk name arguments = .ok .unknown :=
    hat.trans (dispatch_unknown c name arguments h)
  constructor
  · unfold call_tool
    rw [hu]
  · unfold call_tool
    rw [hu]
    simp [Json.topKeys]

/-- Witness for `call_tool_unknown_tool_envelope`. -/
theorem call_tool_unknown_tool_envelope_witness :
    call_tool envWithKey (some testClient) mkTest "get_twitter_dms" [] =
        Json.obj [("error", Json.str "Unknown tool: get_twitter_dms")] ∧
      "error_type" ∉ (call_tool envWithKey (some testClient) mkTest
        "get_twitter_dms" []).topKeys :=
  call_tool_unknown_tool_envelope envWithKey testClient mkTest
    "get_twitter_dms" [] (by decide)

/-- C4 (counterexample): with no credential configured and no cached
client, an unknown tool name yields the `ValueError` configuration-error
envelope, not the unknown-tool error: the client is obtained before the
tool name is resolved. -/
theorem unknown_tool_needs_client_first :
    call_tool envNone Option.none mkTest "not_a_real_tool" [] =
        Json.obj [("error", Json.str apiKeyErrorMsg),
                  ("error_type", Json.str "ValueError")] ∧
      call_tool envNone Option.none mkTest "not_a_real_tool" [] ≠
        Json.obj [("error", Json.str "Unknown tool: not_a_real_tool")] := by
  constructor
  · rfl
  · intro hcontra
    have h2 : Json.obj [("error", Json.str apiKeyErrorMsg),
        ("error_type", Json.str "ValueError")] =
        Json.obj [("error", Json.str "Unknown tool: not_a_real_tool")] := hcontra
    simp at h2

/-- C4 (amended): `call_tool` obtains (or constructs) the client before
resolving the tool name: with no cached client and no configured
credential, every invocation — whatever the tool name, known or unknown —
returns the `ValueError` configuration-error envelope; the unknown-tool
error is produced only once a client is available. -/
theorem call_tool_client_before_resolution (env : String → Option String)
    (mk : String → Client) (name : String) (arguments : Arguments)
    (h : env "SCRAPEBADGER_API_KEY" = Option.none) :
    call_tool env Option.none mk name arguments =
      Json.obj [("error", Json.str apiKeyErrorMsg),
                ("error_type", Json.str "ValueError")] := by
  have hat : call_tool_attempt env Option.none mk name arguments =
      .error ⟨"ValueError", apiKeyErrorMsg⟩ := by
    unfold call_tool_attempt get_client get_api_key
    rw [h]
  unfold call_tool
  rw [hat]
  rfl

/-- Witness for `call_tool_client_before_resolution`. -/
theorem call_tool_client_before_resolution_witness :
    call_tool envNone Option.none mkTest "get_twitter_user_profile"
        [("username", ArgVal.str "alice")] =
      Json.obj [("error", Json.str apiKeyErrorMsg),
                ("error_type", Json.str "ValueError")] :=
  call_tool_client_before_resolution envNone mkTest "get_twitter_user_profile"
    [("username", ArgVal.str "alice")] rfl

/-- An unrecognized (already lower-cased) category string maps to no
`TrendCategory`. -/
theorem category_map_unrecognized (t : String)
    (h : t ∉ ["news", "sports", "entertainment"]) :
    category_map t = Option.none := by
  simp only [List.mem_cons, List.not_mem_nil, or_false, not_or] at h
  obtain ⟨hn, hs, he⟩ := h
  simp [category_map, hn, hs, he]

/-- C7: a `get_twitter_trends` call whose category string matches no
recognized category (news, sports, entertainment, case-insensitively)
behaves exactly like a call with no category: the unfiltered
`get_trends` operation is invoked, and when it succeeds no error is
raised — the listing of its trends is returned. -/
theorem trends_unrecognized_category_unfiltered (env : String → Option String)
    (c : Client) (mk : String → Client) (s : String)
    (h : strLower s ∉ ["news", "sports", "entertainment"]) :
    call_tool env (some c) mk "get_twitter_trends"
        [("category", ArgVal.str s)] =
      call_tool env (some c) mk "get_twitter_trends" [] ∧
    ∀ resp : DataResponse, c.trends_get_trends Option.none = .ok resp →
      dispatch c "get_twitter_trends" [("category", ArgVal.str s)] =
        .ok (.result (listing "trends" resp.data)) := by
  have hcall : (if s ≠ "" then c.trends_get_trends (category_map (strLower s))
      else c.trends_get_trends Option.none) = c.trends_get_trends Option.none := by
    by_cases hs : s = ""
    · subst hs
      simp
    · rw [if_pos hs, category_map_unrecognized (strLower s) h]
  have hd : dispatch c "get_twitter_trends" [("category", ArgVal.str s)] =
      dispatch c "get_twitter_trends" [] := by
    show step (if s ≠ "" then c.trends_get_trends (category_map (strLower s))
        else c.trends_get_trends Option.none)
        (fun resp => (Except.ok (DispatchOut.result (listing "trends" resp.data)) :
          Except Exc DispatchOut)) =
      step (c.trends_get_trends Option.none)
        (fun resp => (Except.ok (DispatchOut.result (listing "trends" resp.data)) :
          Except Exc DispatchOut))
    rw [hcall]
  constructor
  · unfold call_tool
    have h1 : call_tool_attempt env (some c) mk "get_twitter_trends"
        [("category", ArgVal.str s)] =
        call_tool_attempt env (some c) mk "get_twitter_trends" [] := hd
    rw [h1]
  · intro resp hresp
    show step (if s ≠ "" then c.trends_get_trends (category_map (strLower s))
        else c.trends_get_trends Option.none)
        (fun r => (Except.ok (DispatchOut.result (listing "trends" r.data)) :
          Except Exc DispatchOut)) =
      Except.ok (DispatchOut.result (listing "trends" resp.data))
    rw [hcall, hresp]
    rfl

/-- Witness for `trends_unrecognized_category_unfiltered` at the
unrecognized category string "breaking". -/
theorem trends_unrecognized_category_unfiltered_witness :
    call_tool envWithKey (some testClient) mkTest "get_twitter_trends"
        [("category", ArgVal.str "breaking")] =
      call_tool envWithKey (some testClient) mkTest "get_twitter_trends" [] ∧
    dispatch testClient "get_twitter_trends"
        [("category", ArgVal.str "breaking")] =
      .ok (.result (listing "trends" [okTrend])) :=
  ⟨(trends_unrecognized_category_unfiltered envWithKey testClient mkTest
      "breaking" (by decide)).1,
   (trends_unrecognized_category_unfiltered envWithKey testClient mkTest
      "breaking" (by decide)).2 ⟨[okTrend]⟩ rfl⟩

/-- Every `listing` value is a dict of an item array and a `count` equal
to the array's length. -/
theorem listing_shape (key : String) (items : List PyVal) :
    ∃ elems n, listing key items =
        PyVal.dict [(key, Json.arr elems), ("count", Json.num n)] ∧
      n = (elems.length : Int) := by
  refine ⟨items.map (fun v => Json.obj (serialize_model v)),
    (items.length : Int), rfl, ?_⟩
  simp

/-- A dispatch branch of the collection-fetch form — validate, delegate,
extract an item list, build a `listing` — only ever produces listing
results. -/
theorem listing_branch {α β : Type} (validate : Except ValErr α)
    (op : α → Except Exc β) (items : α → β → List PyVal) (key : String)
    (v : PyVal)
    (h : valStep validate (fun args =>
          step (op args) (fun b =>
            .ok (.result (listing key (items args b))))) =
        .ok (.result v)) :
    ∃ elems n, v = PyVal.dict [(key, Json.arr elems), ("count", Json.num n)] ∧
      n = (elems.length : Int) := by
  cases validate with
  | error e => exact Except.noConfusion h
  | ok args =>
    have h0 : step (op args) (fun b =>
        (.ok (.result (listing key (items args b))) : Except Exc DispatchOut)) =
        .ok (.result v) := h
    cases hop : op args with
    | error e =>
      rw [hop] at h0
      exact Except.noConfusion h0
    | ok b =>
      rw [hop] at h0
      have h1 : (Except.ok (DispatchOut.result (listing key (items args b))) :
          Except Exc DispatchOut) = .ok (.result v) := h0
      have h2 : DispatchOut.result (listing key (items args b)) =
          DispatchOut.result v := by injection h1
      have h3 : listing key (items args b) = v := by injection h2
      obtain ⟨elems, n, he, hn⟩ := listing_shape key (items args b)
      exact ⟨elems, n, h3 ▸ he, hn⟩

/-- C8: every result a collection-fetch tool dispatches successfully is a
listing whose `count` field equals the length of its item array. -/
theorem listing_count_invariant (c : Client) (name : String)
    (arguments : Arguments) (v : PyVal)
    (hname : name ∈ listingToolNames)
    (hd : dispatch c name arguments = .ok (.result v)) :
    ∃ key elems n,
      v = PyVal.dict [(key, Json.arr elems), ("count", Json.num n)] ∧
        n = (elems.length : Int) := by
  fin_cases hname
  · exact ⟨"users", listing_branch (SearchUsersArgs.validate arguments)
      (fun a => c.users_search_all a.query a.max_results)
      (fun _ l => l) "users" v hd⟩
  · exact ⟨"followers", listing_branch (GetFollowersArgs.validate arguments)
      (fun a => c.users_get_followers_all a.username a.max_results)
      (fun _ l => l) "followers" v hd⟩
  · exact ⟨"following", listing_branch (GetFollowingArgs.validate arguments)
      (fun a => c.users_get_following_all a.username a.max_results)
      (fun _ l => l) "following" v hd⟩
  · exact ⟨"tweets", listing_branch (GetUserTweetsArgs.validate arguments)
      (fun a => c.tweets_get_user_tweets_all a.username a.max_results)
      (fun _ l => l) "tweets" v hd⟩
  · exact ⟨"tweets", listing_branch (SearchTweetsArgs.validate arguments)
      (fun a => c.tweets_search_all a.query a.max_results)
      (fun _ l => l) "tweets" v hd⟩
  · exact ⟨"trends", listing_branch (GetTrendsArgs.validate arguments)
      (fun a => match a.category with
        | some cat =>
          if cat ≠ "" then c.trends_get_trends (category_map (strLower cat))
          else c.trends_get_trends Option.none
        | Option.none => c.trends_get_trends Option.none)
      (fun _ resp => resp.data) "trends" v hd⟩
  · exact ⟨"places", listing_branch (SearchPlacesArgs.validate arguments)
      (fun a => c.geo_search a.query)
      (fun _ resp => resp.data) "places" v hd⟩
  · exact ⟨"lists", listing_branch (SearchListsArgs.validate arguments)
      (fun a => c.lists_search a.query)
      (fun a resp => resp.data.take a.max_results.toNat) "lists" v hd⟩
  · exact ⟨"tweets", listing_branch (GetListTweetsArgs.validate arguments)
      (fun a => c.lists_get_tweets_all a.list_id a.max_results)
      (fun _ l => l) "tweets" v hd⟩
  · exact ⟨"communities", listing_branch (SearchCommunitiesArgs.validate arguments)
      (fun a => c.communities_search a.query)
      (fun _ resp => resp.data) "communities" v hd⟩

/-- Witness for `listing_count_invariant` on a concrete
`search_twitter_users` dispatch. -/
theorem listing_count_invariant_witness :
    ∃ key elems n,
      listing "users" [] =
          PyVal.dict [(key, Json.arr elems), ("count", Json.num n)] ∧
        n = (elems.length : Int) :=
  listing_count_invariant testClient "search_twitter_users"
    [("query", ArgVal.str "x")] (listing "users" []) (by decide) rfl

end ScrapebadgerMCP
